import Mathlib

/-!
Shallow embedding of st2reactor/st2reactor/container/partitioner.py.

The module decides which sensors a node of a partitioned sensor fleet must
run.  Strategy classes (DefaultPartitioner, KVStorePartitioner,
FileBasedPartitioner) compute a required sensor-reference set (Python None
is the all sentinel) and filter the enabled catalog; SingleSensorProvider
and the top-level get_sensors select among them from process configuration.

External collaborators (the sensor catalog, the key-value store, the YAML
partition file, oslo config) are passed in explicitly as an Env / GlobalConf.
Python string primitives used by the source (str.split, str.strip,
str.lower) are embedded as executable Lean functions on character lists.
-/

namespace St2Partitioner

/-- A sensor definition as seen by this module: only its string reference
(the result of sensor.get_reference().ref) matters for partitioning. -/
structure Sensor where
  ref : String
deriving DecidableEq

/-- Embeds sensor.get_reference().ref from the source. -/
def Sensor.get_reference (s : Sensor) : String := s.ref

/-- Python whitespace characters recognised by str.strip(). -/
def isPySpace (c : Char) : Bool :=
  c = ' ' || c = '\t' || c = '\n' || c = '\r' || c = '\x0b' || c = '\x0c'

/-- Embeds Python str.strip(): drop whitespace from both ends. -/
def pyStrip (s : String) : String :=
  String.mk (((s.data.dropWhile isPySpace).reverse.dropWhile isPySpace).reverse)

/-- Helper for pySplit on character lists; splitting the empty list yields
one empty group, matching Python where the empty string splits to `[""]`. -/
def pySplitAux (sep : Char) : List Char → List (List Char)
  | [] => [[]]
  | c :: rest =>
    if c = sep then [] :: pySplitAux sep rest
    else
      match pySplitAux sep rest with
      | [] => [[c]]
      | g :: gs => (c :: g) :: gs

/-- Embeds Python str.split(sep) with an explicit one-character separator. -/
def pySplit (sep : Char) (s : String) : List String :=
  (pySplitAux sep s.data).map String.mk

/-- ASCII lowering of a single character, as Python str.lower() does on the
ASCII strategy names used here. -/
def asciiLower (c : Char) : Char :=
  if 'A' ≤ c && c ≤ 'Z' then Char.ofNat (c.toNat + 32) else c

/-- Embeds Python str.lower() on the ASCII strings this module compares. -/
def pyLower (s : String) : String := String.mk (s.data.map asciiLower)

/-- Errors raised by the source: the three sensor exceptions it imports from
st2common, plus Python KeyError (pop of a missing name key) and TypeError
(constructor keyword mismatch when extra config fields do not fit). -/
inductive SensorError where
  | SensorNotFoundException (msg : String)
  | SensorPartitionerNotSupportedException (msg : String)
  | SensorPartitionMapMissingException (msg : String)
  | keyError
  | typeError
deriving DecidableEq

def SensorError.isSensorNotFound : SensorError → Bool
  | .SensorNotFoundException _ => true
  | _ => false

def SensorError.isPartitionMapMissing : SensorError → Bool
  | .SensorPartitionMapMissingException _ => true
  | _ => false

def SensorError.isUnsupportedPartitionStrategy : SensorError → Bool
  | .SensorPartitionerNotSupportedException _ => true
  | _ => false

/-- DefaultPartitioner.get_required_sensor_refs: returns None, the sentinel
meaning all sensors. -/
def DefaultPartitioner.get_required_sensor_refs : Option (Finset String) := none

/-- DefaultPartitioner.get_sensors, the common filtering algorithm inherited
by the key-value and file strategies: None keeps the whole enabled catalog;
otherwise a loop appends each enabled sensor whose reference is in the
required set. -/
def DefaultPartitioner.get_sensors (all_enabled_sensors : List Sensor)
    (sensor_refs : Option (Finset String)) : List Sensor :=
  match sensor_refs with
  | none => all_enabled_sensors
  | some refs =>
    all_enabled_sensors.foldl
      (fun partition_members sensor =>
        if sensor.get_reference ∈ refs then partition_members ++ [sensor]
        else partition_members)
      []

/-- KVStorePartitioner._get_partition_lookup_key. -/
def KVStorePartitioner._get_partition_lookup_key (sensor_node_name : String) : String :=
  sensor_node_name ++ ".sensor_partition"

/-- KVStorePartitioner.get_required_sensor_refs.  The key-value directory is
the function kv.  Modelled from the spec: KeyValuePair.get_by_name lives in
st2common (not under src); the spec gives it the contract
get_value(key) -> Option String with an absent key treated as an empty
string, which also matches the falsy check on kvp.value in the source.  The
value is comma-split and each element stripped, then collected into a set. -/
def KVStorePartitioner.get_required_sensor_refs (kv : String → Option String)
    (sensor_node_name : String) : Finset String :=
  let partition_lookup_key := KVStorePartitioner._get_partition_lookup_key sensor_node_name
  let sensor_refs_str :=
    match kv partition_lookup_key with
    | none => ""
    | some v => if v = "" then "" else v
  ((pySplit ',' sensor_refs_str).map pyStrip).toFinset

/-- FileBasedPartitioner.get_required_sensor_refs.  partition_map is the
YAML document already parsed as an association list; a value of Option.none
models a YAML null entry, which Python dict.get conflates with a missing
key.  A missing result raises SensorPartitionMapMissingException; otherwise
the listed references form the set, untrimmed. -/
def FileBasedPartitioner.get_required_sensor_refs (partition_file : String)
    (partition_map : List (String × Option (List String)))
    (sensor_node_name : String) : Except SensorError (Finset String) :=
  let sensor_refs :=
    match partition_map.lookup sensor_node_name with
    | none => none
    | some v => v
  match sensor_refs with
  | none =>
    .error (.SensorPartitionMapMissingException
      ("Sensor partition not found for " ++ sensor_node_name ++ " in " ++ partition_file ++ "."))
  | some refs => .ok refs.toFinset

/-- SingleSensorProvider.get_sensors: fetch one sensor by reference, raising
SensorNotFoundException when it does not resolve. -/
def SingleSensorProvider.get_sensors (get_by_ref : String → Option Sensor)
    (sensor_ref : String) : Except SensorError (List Sensor) :=
  match get_by_ref sensor_ref with
  | none => .error (.SensorNotFoundException ("Sensor " ++ sensor_ref ++ " not found in db."))
  | some sensor => .ok [sensor]

/-- The three partition strategies registered in PROVIDERS. -/
inductive Strategy where
  | defaultStrategy
  | kvstoreStrategy
  | fileStrategy
deriving DecidableEq

/-- The PROVIDERS registry.  Modelled from the spec: the key constants
DEFAULT_PARTITION_LOADER, KVSTORE_PARTITION_LOADER and FILE_PARTITION_LOADER
come from st2common.constants.sensors, which is not under src; the spec
names the registry keys default, key-value-store and file. -/
def PROVIDERS (name : String) : Option Strategy :=
  if name = "default" then some .defaultStrategy
  else if name = "key-value-store" then some .kvstoreStrategy
  else if name = "file" then some .fileStrategy
  else none

/-- The external collaborators read by a resolution call: the enabled-sensor
catalog scan, lookup of one sensor by reference, the key-value directory,
and the parsed content of a partition file per path. -/
structure Env where
  enabled_sensors : List Sensor
  get_by_ref : String → Option Sensor
  kv_get : String → Option String
  read_partition_file : String → List (String × Option (List String))

/-- The process-wide configuration read by the top-level get_sensors:
cfg.CONF.sensor_ref, cfg.CONF.sensorcontainer.partition_provider (a dict
with a required name key plus strategy-specific extras, modelled as an
association list) and cfg.CONF.sensorcontainer.sensor_node_name. -/
structure GlobalConf where
  sensor_ref : Option String
  partition_provider : List (String × String)
  sensor_node_name : String
deriving DecidableEq

/-- Python dict.pop(key) on the association-list model of a dict: remove the
first binding of key, returning its value (none when the key is absent,
where Python raises KeyError). -/
def dictPop (key : String) : List (String × String) → Option String × List (String × String)
  | [] => (none, [])
  | (k, v) :: rest =>
    if k = key then (some v, rest)
    else
      let r := dictPop key rest
      (r.1, (k, v) :: r.2)

/-- Instantiating the selected provider with the remaining configuration
fields (after name was popped) and invoking its get_sensors.  The lookup is
PROVIDERS.get(partition_provider.lower()); an unrecognised name raises
SensorPartitionerNotSupportedException.  Keyword-argument mismatches on the
constructors (extra fields for default or key-value-store; a missing or
superfluous field besides partition_file for file) are Python TypeErrors. -/
def instantiate_provider (env : Env) (sensor_node_name : String)
    (partition_provider : String) (extra : List (String × String)) :
    Except SensorError (List Sensor) :=
  match PROVIDERS (pyLower partition_provider) with
  | none =>
    .error (.SensorPartitionerNotSupportedException
      ("Partition provider " ++ partition_provider ++ " not found."))
  | some .defaultStrategy =>
    match extra with
    | [] => .ok (DefaultPartitioner.get_sensors env.enabled_sensors
        DefaultPartitioner.get_required_sensor_refs)
    | _ :: _ => .error .typeError
  | some .kvstoreStrategy =>
    match extra with
    | [] => .ok (DefaultPartitioner.get_sensors env.enabled_sensors
        (some (KVStorePartitioner.get_required_sensor_refs env.kv_get sensor_node_name)))
    | _ :: _ => .error .typeError
  | some .fileStrategy =>
    match dictPop "partition_file" extra with
    | (none, _) => .error .typeError
    | (some partition_file, rest) =>
      match rest with
      | [] =>
        match FileBasedPartitioner.get_required_sensor_refs partition_file
            (env.read_partition_file partition_file) sensor_node_name with
        | .error e => .error e
        | .ok refs => .ok (DefaultPartitioner.get_sensors env.enabled_sensors (some refs))
      | _ :: _ => .error .typeError

/-- The strategy branch of the top-level get_sensors: copy the
partition_provider dict (copy.copy — the global keeps its own dict), pop
name from the copy, select and run the provider.  The returned GlobalConf
is the process-wide configuration after the call. -/
def strategy_path (env : Env) (conf : GlobalConf) :
    Except SensorError (List Sensor) × GlobalConf :=
  match dictPop "name" conf.partition_provider with
  | (none, _) => (.error .keyError, conf)
  | (some partition_provider, rest) =>
    (instantiate_provider env conf.sensor_node_name partition_provider rest, conf)

/-- The top-level get_sensors, as a state-passing function over the
process-wide configuration: a truthy cfg.CONF.sensor_ref short-circuits to
SingleSensorProvider; otherwise the configured strategy resolves the list. -/
def get_sensors (env : Env) (conf : GlobalConf) :
    Except SensorError (List Sensor) × GlobalConf :=
  match conf.sensor_ref with
  | some sensor_ref =>
    if sensor_ref = "" then strategy_path env conf
    else (SingleSensorProvider.get_sensors env.get_by_ref sensor_ref, conf)
  | none => strategy_path env conf

/-- A concrete environment used to instantiate witnesses: two enabled
sensors, a by-reference lookup resolving only p.a, an empty key-value
directory, and a partition file mapping node n to the single reference
p.a. -/
def envW : Env where
  enabled_sensors := [Sensor.mk "p.a", Sensor.mk "p.b"]
  get_by_ref := fun r => if r = "p.a" then some (Sensor.mk "p.a") else none
  kv_get := fun _ => none
  read_partition_file := fun _ => [("n", some ["p.a"])]

/-! Helper lemmas shared by the claim theorems. -/

/-- The accumulator loop of the common get_sensors algorithm is list
filtering. -/
lemma foldl_members_eq_filter (refs : Finset String) (l : List Sensor) :
    ∀ acc : List Sensor,
      l.foldl
        (fun partition_members sensor =>
          if sensor.get_reference ∈ refs then partition_members ++ [sensor]
          else partition_members)
        acc
      = acc ++ l.filter (fun sensor => decide (sensor.get_reference ∈ refs)) := by
  induction l with
  | nil => intro acc; simp
  | cons hd tl ih =>
    intro acc
    by_cases h : hd.get_reference ∈ refs
    · simp [List.foldl_cons, h, ih, List.filter_cons]
    · simp [List.foldl_cons, h, ih, List.filter_cons]

/-- Specialisation of the loop lemma to a non-sentinel required set. -/
lemma get_sensors_some_eq_filter (catalog : List Sensor) (refs : Finset String) :
    DefaultPartitioner.get_sensors catalog (some refs)
      = catalog.filter (fun sensor => decide (sensor.get_reference ∈ refs)) := by
  unfold DefaultPartitioner.get_sensors
  simpa using foldl_members_eq_filter refs catalog []

/-- The second component of strategy_path is always the unchanged
configuration: the name key is popped from the copied dict only. -/
lemma strategy_path_snd (env : Env) (conf : GlobalConf) :
    (strategy_path env conf).2 = conf := by
  unfold strategy_path
  rcases h : dictPop "name" conf.partition_provider with ⟨o, rest⟩
  cases o <;> simp

/-! Claim theorems. -/

/-- Claim C3: for the common get_sensors algorithm shared by the Default,
Key-Value and File strategies, a non-sentinel required set makes the result
exactly the catalog entries whose reference is in the required set, in the
catalog scan order (a sublist of the catalog); required references missing
from the catalog are silently dropped, and every returned sensor belongs to
the enabled catalog. -/
theorem C3_common_get_sensors_filters (catalog : List Sensor) (refs : Finset String) :
    DefaultPartitioner.get_sensors catalog (some refs)
        = catalog.filter (fun sensor => decide (sensor.get_reference ∈ refs))
      ∧ (DefaultPartitioner.get_sensors catalog (some refs)).Sublist catalog
      ∧ ∀ s ∈ DefaultPartitioner.get_sensors catalog (some refs),
          s ∈ catalog ∧ s.get_reference ∈ refs := by
  refine ⟨get_sensors_some_eq_filter catalog refs, ?_, ?_⟩
  · rw [get_sensors_some_eq_filter]
    exact List.filter_sublist _
  · intro s hs
    rw [get_sensors_some_eq_filter] at hs
    have h := List.mem_filter.mp hs
    exact ⟨h.1, by simpa using h.2⟩

/-- Witness for C3 at a concrete catalog and required set: the reference
p.zz of the required set is absent from the catalog and dropped. -/
theorem C3_common_get_sensors_filters_witness :
    DefaultPartitioner.get_sensors [Sensor.mk "p.a", Sensor.mk "p.b"]
        (some ({"p.b", "p.zz"} : Finset String))
      = [Sensor.mk "p.b"] := by
  have h := C3_common_get_sensors_filters [Sensor.mk "p.a", Sensor.mk "p.b"]
    ({"p.b", "p.zz"} : Finset String)
  rw [h.1]
  decide

/-- Claim C5: the Default strategy resolves the all sentinel (Python None)
and returns the full enabled catalog unchanged, for every catalog content
including the empty one. -/
theorem C5_default_returns_all (catalog : List Sensor) :
    DefaultPartitioner.get_required_sensor_refs = (none : Option (Finset String))
      ∧ DefaultPartitioner.get_sensors catalog DefaultPartitioner.get_required_sensor_refs
          = catalog
      ∧ DefaultPartitioner.get_sensors ([] : List Sensor)
          DefaultPartitioner.get_required_sensor_refs = [] :=
  ⟨rfl, rfl, rfl⟩

/-- Witness for C5 at a concrete catalog. -/
theorem C5_default_returns_all_witness :
    DefaultPartitioner.get_sensors [Sensor.mk "p.a", Sensor.mk "p.b"]
        DefaultPartitioner.get_required_sensor_refs
      = [Sensor.mk "p.a", Sensor.mk "p.b"] :=
  (C5_default_returns_all [Sensor.mk "p.a", Sensor.mk "p.b"]).2.1

/-- Counterexample for C1 as stated: with the directory key absent, the
Key-Value required set is not empty (it is the singleton of the empty
string, since splitting the empty string on commas yields one empty
element), and on a catalog holding a sensor with the empty reference
get_sensors is not the empty list. -/
theorem C1_counterexample :
    ¬ (KVStorePartitioner.get_required_sensor_refs (fun _ => none) "node1" = (∅ : Finset String)
        ∧ DefaultPartitioner.get_sensors [Sensor.mk ""]
            (some (KVStorePartitioner.get_required_sensor_refs (fun _ => none) "node1"))
          = []) := by
  decide

/-- Claim C1 amended: with the directory key absent or its value the empty
string, the Key-Value required set is the singleton containing the empty
string (not the all sentinel and not the empty set); get_sensors then keeps
exactly the enabled sensors whose reference is the empty string, so it is
the empty list whenever no enabled sensor has an empty reference — never
the full catalog in that case. -/
theorem C1_kv_absent_or_empty_singleton (kv : String → Option String) (node : String)
    (catalog : List Sensor)
    (h : kv (KVStorePartitioner._get_partition_lookup_key node) = none
       ∨ kv (KVStorePartitioner._get_partition_lookup_key node) = some "") :
    KVStorePartitioner.get_required_sensor_refs kv node = ({""} : Finset String)
      ∧ DefaultPartitioner.get_sensors catalog
          (some (KVStorePartitioner.get_required_sensor_refs kv node))
          = catalog.filter (fun sensor => decide (sensor.get_reference = ""))
      ∧ ((∀ s ∈ catalog, s.get_reference ≠ "") →
          DefaultPartitioner.get_sensors catalog
            (some (KVStorePartitioner.get_required_sensor_refs kv node)) = []) := by
  have hset : KVStorePartitioner.get_required_sensor_refs kv node = ({""} : Finset String) := by
    unfold KVStorePartitioner.get_required_sensor_refs
    rcases h with h | h <;> simp only [h] <;> decide
  refine ⟨hset, ?_, ?_⟩
  · rw [hset, get_sensors_some_eq_filter]
    apply List.filter_congr
    intro s _
    simp [Finset.mem_singleton]
  · intro hall
    rw [hset, get_sensors_some_eq_filter]
    apply List.filter_eq_nil_iff.mpr
    intro s hs
    simpa [Finset.mem_singleton] using hall s hs

/-- Witness for the amended C1: absent key, a catalog with one ordinary
reference, empty resulting sensor list. -/
theorem C1_kv_absent_or_empty_singleton_witness :
    KVStorePartitioner.get_required_sensor_refs (fun _ => none) "n" = ({""} : Finset String)
      ∧ DefaultPartitioner.get_sensors [Sensor.mk "p.a"]
          (some (KVStorePartitioner.get_required_sensor_refs (fun _ => none) "n")) = [] := by
  have h := C1_kv_absent_or_empty_singleton (fun _ => none) "n" [Sensor.mk "p.a"] (Or.inl rfl)
  exact ⟨h.1, h.2.2 (by decide)⟩

/-- Claim C2: the File strategy raises SensorPartitionMapMissingException
when the parsed mapping has no entry for the node, and an entry holding an
explicit empty sequence yields the empty required set, with which the
common get_sensors returns the empty list without error. -/
theorem C2_file_missing_vs_empty (partition_file : String)
    (partition_map : List (String × Option (List String))) (node : String)
    (catalog : List Sensor) :
    (partition_map.lookup node = none →
        FileBasedPartitioner.get_required_sensor_refs partition_file partition_map node
          = .error (.SensorPartitionMapMissingException
              ("Sensor partition not found for " ++ node ++ " in " ++ partition_file ++ ".")))
      ∧ (partition_map.lookup node = some (some []) →
          FileBasedPartitioner.get_required_sensor_refs partition_file partition_map node
              = .ok (∅ : Finset String)
            ∧ DefaultPartitioner.get_sensors catalog (some (∅ : Finset String)) = []) := by
  constructor
  · intro h
    unfold FileBasedPartitioner.get_required_sensor_refs
    simp [h]
  · intro h
    constructor
    · unfold FileBasedPartitioner.get_required_sensor_refs
      simp [h]
    · rw [get_sensors_some_eq_filter]
      simp

/-- Witness for C2: a map without the node raises the missing-map error; a
map holding an explicit empty sequence for the node yields the empty set
and an empty sensor list. -/
theorem C2_file_missing_vs_empty_witness :
    FileBasedPartitioner.get_required_sensor_refs "part.yaml" [("m", some ["p.a"])] "n"
        = .error (.SensorPartitionMapMissingException
            ("Sensor partition not found for " ++ "n" ++ " in " ++ "part.yaml" ++ "."))
      ∧ FileBasedPartitioner.get_required_sensor_refs "part.yaml" [("n", some [])] "n"
          = .ok (∅ : Finset String)
      ∧ DefaultPartitioner.get_sensors [Sensor.mk "p.a"] (some (∅ : Finset String)) = [] := by
  refine ⟨(C2_file_missing_vs_empty "part.yaml" [("m", some ["p.a"])] "n" []).1 (by decide),
    ?_, ?_⟩
  · exact ((C2_file_missing_vs_empty "part.yaml" [("n", some [])] "n"
      [Sensor.mk "p.a"]).2 (by decide)).1
  · exact ((C2_file_missing_vs_empty "part.yaml" [("n", some [])] "n"
      [Sensor.mk "p.a"]).2 (by decide)).2

/-- Claim C6: the Key-Value lookup key is the node identity followed by
.sensor_partition, and a present value "a, b ,c" resolves to the required
set of a, b and c: the value is comma-split and each element stripped of
surrounding whitespace. -/
theorem C6_kv_key_and_trim (kv : String → Option String) (node : String)
    (h : kv (node ++ ".sensor_partition") = some "a, b ,c") :
    KVStorePartitioner._get_partition_lookup_key node = node ++ ".sensor_partition"
      ∧ KVStorePartitioner.get_required_sensor_refs kv node
          = ({"a", "b", "c"} : Finset String) := by
  refine ⟨rfl, ?_⟩
  unfold KVStorePartitioner.get_required_sensor_refs
    KVStorePartitioner._get_partition_lookup_key
  simp only [h]
  decide

/-- Witness for C6 with a concrete directory function. -/
theorem C6_kv_key_and_trim_witness :
    KVStorePartitioner.get_required_sensor_refs
        (fun k => if k = "n.sensor_partition" then some "a, b ,c" else none) "n"
      = ({"a", "b", "c"} : Finset String) :=
  (C6_kv_key_and_trim
    (fun k => if k = "n.sensor_partition" then some "a, b ,c" else none) "n" (by decide)).2

/-- Claim C10: a node entry parsed as null (Option.none in the parsed map)
behaves exactly like a missing entry: the File strategy resolution equals
the one on an empty map and raises SensorPartitionMapMissingException. -/
theorem C10_null_entry_is_missing (partition_file : String)
    (partition_map : List (String × Option (List String))) (node : String)
    (h : partition_map.lookup node = some none) :
    FileBasedPartitioner.get_required_sensor_refs partition_file partition_map node
        = FileBasedPartitioner.get_required_sensor_refs partition_file [] node
      ∧ ∃ e, FileBasedPartitioner.get_required_sensor_refs partition_file partition_map node
            = .error e ∧ e.isPartitionMapMissing = true := by
  constructor
  · unfold FileBasedPartitioner.get_required_sensor_refs
    simp [h]
  · refine ⟨.SensorPartitionMapMissingException
      ("Sensor partition not found for " ++ node ++ " in " ++ partition_file ++ "."), ?_, rfl⟩
    unfold FileBasedPartitioner.get_required_sensor_refs
    simp [h]

/-- Witness for C10: an explicit null entry for the node. -/
theorem C10_null_entry_is_missing_witness :
    FileBasedPartitioner.get_required_sensor_refs "part.yaml" [("n", none)] "n"
        = FileBasedPartitioner.get_required_sensor_refs "part.yaml" [] "n"
      ∧ ∃ e, FileBasedPartitioner.get_required_sensor_refs "part.yaml" [("n", none)] "n"
            = .error e ∧ e.isPartitionMapMissing = true :=
  C10_null_entry_is_missing "part.yaml" [("n", none)] "n" (by decide)

/-- Claim C4: a truthy configured sensor_ref routes resolution through
SingleSensorProvider exclusively, whatever the partition-strategy
configuration holds (including an invalid strategy name), and the call
raises SensorNotFoundException exactly when the reference does not resolve
in the catalog; when it resolves, the result is that one sensor. -/
theorem C4_single_sensor_override (env : Env) (conf : GlobalConf) (r : String)
    (hconf : conf.sensor_ref = some r) (hne : r ≠ "") :
    (get_sensors env conf).1 = SingleSensorProvider.get_sensors env.get_by_ref r
      ∧ ((∃ e, (get_sensors env conf).1 = .error e ∧ e.isSensorNotFound = true)
          ↔ env.get_by_ref r = none)
      ∧ (∀ s, env.get_by_ref r = some s → (get_sensors env conf).1 = .ok [s]) := by
  have hmain : (get_sensors env conf).1
      = SingleSensorProvider.get_sensors env.get_by_ref r := by
    unfold get_sensors
    simp [hconf, hne]
  rcases hg : env.get_by_ref r with _ | s
  · have herr : (get_sensors env conf).1
        = .error (.SensorNotFoundException ("Sensor " ++ r ++ " not found in db.")) := by
      rw [hmain]
      unfold SingleSensorProvider.get_sensors
      rw [hg]
    refine ⟨hmain, ?_, ?_⟩
    · simp [herr, SensorError.isSensorNotFound]
    · intro s hs
      cases hs
  · have hok : (get_sensors env conf).1 = .ok [s] := by
      rw [hmain]
      unfold SingleSensorProvider.get_sensors
      rw [hg]
    refine ⟨hmain, ?_, ?_⟩
    · rw [hok]
      constructor
      · rintro ⟨e, he, -⟩
        cases he
      · intro h
        cases h
    · intro s2 hs2
      injection hs2 with hs3
      rw [← hs3]
      exact hok

/-- Witness for C4: the configuration names an invalid strategy bogus next
to a valid direct reference, and resolution still succeeds with that one
sensor. -/
theorem C4_single_sensor_override_witness :
    (get_sensors envW (⟨some "p.a", [("name", "bogus")], "n"⟩ : GlobalConf)).1
      = .ok [Sensor.mk "p.a"] := by
  have h := C4_single_sensor_override envW ⟨some "p.a", [("name", "bogus")], "n"⟩ "p.a"
    rfl (by decide)
  exact h.2.2 (Sensor.mk "p.a") (by decide)

/-- Claim C7: strategy selection lowercases the configured name, so any two
spellings with the same lowercase form — when that form is one of the
registry keys default, key-value-store, file — resolve identically. -/
theorem C7_strategy_name_case_insensitive (env : Env) (node : String)
    (extra : List (String × String)) (n1 n2 : String)
    (hlow : pyLower n1 = pyLower n2)
    (hreg : pyLower n1 ∈ (["default", "key-value-store", "file"] : List String)) :
    instantiate_provider env node n1 extra = instantiate_provider env node n2 extra := by
  simp only [List.mem_cons, List.mem_singleton, List.not_mem_nil, or_false] at hreg
  rcases hreg with h | h | h <;>
    simp [instantiate_provider.eq_def, h, hlow.symm.trans h, PROVIDERS]

/-- Witness for C7: Default and DEFAULT select the same strategy and yield
the same result. -/
theorem C7_strategy_name_case_insensitive_witness :
    instantiate_provider envW "n" "Default" [] = instantiate_provider envW "n" "DEFAULT" [] :=
  C7_strategy_name_case_insensitive envW "n" [] "Default" "DEFAULT" (by decide) (by decide)

/-- Claim C8: without a truthy direct sensor reference, a configured
strategy name outside the registry makes the top-level get_sensors return
the SensorPartitionerNotSupportedException error — no fallback to the
Default strategy, no sensor list. -/
theorem C8_unsupported_strategy (env : Env) (conf : GlobalConf) (n : String)
    (rest : List (String × String))
    (h1 : conf.sensor_ref = none ∨ conf.sensor_ref = some "")
    (h2 : dictPop "name" conf.partition_provider = (some n, rest))
    (h3 : PROVIDERS (pyLower n) = none) :
    (get_sensors env conf).1
      = .error (.SensorPartitionerNotSupportedException
          ("Partition provider " ++ n ++ " not found.")) := by
  have hsp : (get_sensors env conf).1 = (strategy_path env conf).1 := by
    unfold get_sensors
    rcases h1 with h | h <;> simp [h]
  rw [hsp]
  unfold strategy_path
  rw [h2]
  simp [instantiate_provider, h3]

/-- Witness for C8 with the unregistered strategy name bogus. -/
theorem C8_unsupported_strategy_witness :
    (get_sensors envW (⟨none, [("name", "bogus")], "n"⟩ : GlobalConf)).1
      = .error (.SensorPartitionerNotSupportedException
          ("Partition provider " ++ "bogus" ++ " not found.")) :=
  C8_unsupported_strategy envW ⟨none, [("name", "bogus")], "n"⟩ "bogus" []
    (Or.inl rfl) (by decide) (by decide)

/-- Claim C9: a resolution call leaves the process-wide configuration
untouched: the name key is popped from a shallow copy of the
partition_provider mapping, so the configuration after the call — its name
entry included — equals the configuration before it. -/
theorem C9_no_config_mutation (env : Env) (conf : GlobalConf) :
    (get_sensors env conf).2 = conf
      ∧ ((get_sensors env conf).2).partition_provider.lookup "name"
          = conf.partition_provider.lookup "name" := by
  have h2 : (get_sensors env conf).2 = conf := by
    unfold get_sensors
    rcases hs : conf.sensor_ref with _ | r
    · simp [strategy_path_snd]
    · by_cases hr : r = "" <;> simp [hr, strategy_path_snd]
  exact ⟨h2, by rw [h2]⟩

/-- Witness for C9 on a concrete configuration. -/
theorem C9_no_config_mutation_witness :
    (get_sensors envW (⟨none, [("name", "default")], "n"⟩ : GlobalConf)).2
      = (⟨none, [("name", "default")], "n"⟩ : GlobalConf) :=
  (C9_no_config_mutation envW ⟨none, [("name", "default")], "n"⟩).1

end St2Partitioner
